import Mathlib

/-!
Verification of the MorningBrief news-curation core (freshness scoring,
relevance validation and deduplication, composite ranking, the processing
pipeline Selection → Summarization → Storage, and the smart-serving
orchestrator) against its natural-language specification.

The Python sources are embedded shallowly:

* machine floats become exact `ℚ` where the computation is rational, and `ℝ`
  where the source computes a fractional power (`x ** 1.5` in the freshness
  scorer); `round(x, 4)` becomes `round (x * 10000) / 10000` (Python rounds
  half to even, Mathlib half up; no value in this development sits on a
  half-way point, so the two agree on everything proved here);
* `datetime` values become rational "hours since an arbitrary epoch", and the
  implicit `datetime.utcnow()` of the source becomes an explicit `now`
  parameter;
* stateful code (the SQLAlchemy session) becomes explicit state passing on a
  session value, and fallible code returns `Except`/`Option`; points where
  the environment may raise (a database error on one article, a failing
  commit, an LLM call) become oracle parameters;
* `difflib.SequenceMatcher(None, a, b).ratio()` is Python standard library
  code, not code of this repository; it enters `calculate_similarity` as an
  abstract parameter `simFn`, and every concrete input used in a theorem
  below is chosen so that `calculate_similarity` returns through its
  early branches (empty text, equal normalized text) and never consults
  `simFn`.
-/

open Classical

/-- Python truthiness of an optional string: `None` and `""` are falsy. -/
def pyTruthy : Option String → Bool
  | none => false
  | some s => s ≠ ""

/-- Python `a or b` on optional strings: `b` when `a` is falsy. -/
def pyOrOpt (a b : Option String) : Option String :=
  if pyTruthy a then a else b

/-- Python `a or dflt` where the fallback is a plain string. -/
def pyOrStr (a : Option String) (dflt : String) : String :=
  if pyTruthy a then a.getD "" else dflt

/-- Python `str.strip()`: drop leading and trailing whitespace.  Defined
structurally on the character list (Lean's `String.trim` is extensionally the
same but is not kernel-reducible). -/
def pyStrip (s : String) : String :=
  String.mk (((s.data.dropWhile Char.isWhitespace).reverse.dropWhile
    Char.isWhitespace).reverse)

/-- Python `str.lower()` on the ASCII text appearing in this development. -/
def pyLower (s : String) : String :=
  String.mk (s.data.map Char.toLower)

/-- Python `str.startswith(pre)`. -/
def pyStartsWith (s pre : String) : Bool :=
  pre.data.isPrefixOf s.data

/-- Persisted article row (`app.models.NewsArticle`).  `created_at` and
`updated_at` are rational hours since an arbitrary epoch.  The mapped class
in `app/models.py` has no `ai_summary` column, yet the services and the
repository's tests uniformly read and write an `ai_summary` attribute on
these objects (relevance scoring, the storage processor's update branch, the
briefing route): on an instance the assignment succeeds as a plain Python
attribute, so the model carries the field to represent such instances; its
value on a committed row is not durable, and no theorem below depends on
it.  `url` is `unique=True` in the schema: distinct rows have distinct
URLs. -/
structure NewsArticle where
  id : ℤ
  category : String
  title : String
  url : String
  description : Option String
  summary : Option String
  ai_summary : Option String
  created_at : ℚ
  updated_at : ℚ
  is_active : Bool
deriving DecidableEq

/-- `RelevanceValidator.min_title_length`. -/
def min_title_length : ℕ := 10

/-- `RelevanceValidator.min_description_length`. -/
def min_description_length : ℕ := 20

/-- `RelevanceValidator.min_summary_length`. -/
def min_summary_length : ℕ := 30

/-- `RelevanceValidator.similarity_threshold`. -/
def similarity_threshold : ℚ := 0.85

/-- Python `round(x, 4)` on exact rationals. -/
def round4q (x : ℚ) : ℚ := ((round (x * 10000) : ℤ) : ℚ) / 10000

/-- `RelevanceValidator.calculate_relevance_score`: content-quality score
built from title, description, (AI) summary, URL shape and active flag. -/
def calculate_relevance_score (article : NewsArticle) : ℚ :=
  let score : ℚ := 0
  -- Title quality (30% weight)
  let score :=
    if article.title ≠ "" then
      let title_length := (pyStrip article.title).length
      if title_length ≥ min_title_length then
        score + min 1 ((title_length : ℚ) / 100) * 0.3
      else score
    else score
  -- Description quality (20% weight)
  let score :=
    if pyTruthy article.description then
      let desc_length := (pyStrip (article.description.getD "")).length
      if desc_length ≥ min_description_length then
        score + min 1 ((desc_length : ℚ) / 200) * 0.2
      else score
    else score
  -- AI summary (30% weight), falling back to the plain summary at 0.8 weight
  let score :=
    if pyTruthy article.ai_summary then
      let summary_length := (pyStrip (article.ai_summary.getD "")).length
      if summary_length ≥ min_summary_length then
        score + min 1 ((summary_length : ℚ) / 150) * 0.3
      else score
    else if pyTruthy article.summary then
      let summary_length := (pyStrip (article.summary.getD "")).length
      if summary_length ≥ min_summary_length then
        score + min 1 ((summary_length : ℚ) / 150) * 0.8 * 0.3
      else score
    else score
  -- URL validity (10% weight)
  let score :=
    if article.url ≠ "" ∧
        (pyStartsWith article.url "http://" ∨ pyStartsWith article.url "https://") then
      score + 0.1
    else score
  -- Active status (10% weight)
  let score := if article.is_active then score + 0.1 else score
  round4q (min 1 score)

/-- `RelevanceValidator.is_relevant`. -/
def is_relevant (article : NewsArticle) (min_score : ℚ) : Bool :=
  calculate_relevance_score article ≥ min_score

/-- `RelevanceValidator.calculate_similarity`.  `simFn` abstracts
`SequenceMatcher(None, a, b).ratio()` (standard-library code outside this
repository); the empty-text and equal-text branches are the source's own. -/
def calculate_similarity (simFn : String → String → ℚ) (text1 text2 : String) : ℚ :=
  if text1 = "" ∨ text2 = "" then 0
  else
    let a := pyStrip (pyLower text1)
    let b := pyStrip (pyLower text2)
    if a = b then 1 else simFn a b

/-- One step of the inner loop of `RelevanceValidator.find_duplicates`:
compare `article1` against a later, not-yet-processed article and extend the
duplicate group when one of the three duplicate conditions fires. -/
def scan_partner (simFn : String → String → ℚ) (article1 : NewsArticle)
    (state : List ℤ × List ℤ) (article2 : NewsArticle) : List ℤ × List ℤ :=
  let (group, processed) := state
  if article2.id ∈ processed then (group, processed)
  else
    let title_similarity := calculate_similarity simFn article1.title article2.title
    let url_match := article1.url = article2.url
    let desc_similarity :=
      calculate_similarity simFn (article1.description.getD "") (article2.description.getD "")
    if url_match then
      ((if article2.id ∈ group then group else group ++ [article2.id]), article2.id :: processed)
    else if title_similarity ≥ similarity_threshold then
      ((if article2.id ∈ group then group else group ++ [article2.id]), article2.id :: processed)
    else if title_similarity ≥ 0.7 ∧ desc_similarity ≥ 0.7 then
      ((if article2.id ∈ group then group else group ++ [article2.id]), article2.id :: processed)
    else (group, processed)

/-- Outer loop of `RelevanceValidator.find_duplicates` over the remaining
articles, threading the `processed` id set.  Groups are recorded in discovery
order; a group keeps the ids in insertion order (the source keeps a Python
`set`, whose iteration order is unspecified — every theorem below is
insensitive to the order within a group). -/
def find_duplicates_aux (simFn : String → String → ℚ) :
    List NewsArticle → List ℤ → List (List ℤ)
  | [], _ => []
  | article1 :: rest, processed =>
    if article1.id ∈ processed then find_duplicates_aux simFn rest processed
    else
      let (group, processed2) := rest.foldl (scan_partner simFn article1) ([article1.id], processed)
      if group.length > 1 then
        group :: find_duplicates_aux simFn rest (article1.id :: processed2)
      else
        find_duplicates_aux simFn rest processed2

/-- `RelevanceValidator.find_duplicates`. -/
def find_duplicates (simFn : String → String → ℚ) (articles : List NewsArticle) :
    List (List ℤ) :=
  find_duplicates_aux simFn articles []

/-- Insert into a list already sorted descending by `key`, after every
element whose key is strictly larger and before the rest: together with
`sort_desc` this is a stable descending sort, the behavior of Python's
`list.sort(key=key, reverse=True)` (Python's sort is stable and `reverse`
does not reorder ties). -/
def insert_desc {α β : Type} [LinearOrder β] (key : α → β) (x : α) :
    List α → List α
  | [] => [x]
  | y :: ys => if key x < key y then y :: insert_desc key x ys else x :: y :: ys

/-- Stable descending sort by `key`: Python `list.sort(key=key, reverse=True)`. -/
def sort_desc {α β : Type} [LinearOrder β] (key : α → β) : List α → List α
  | [] => []
  | x :: xs => insert_desc key x (sort_desc key xs)

/-- Python `{article.id: article for article in articles}[i]`: the last
article with a given id wins. -/
def article_map (articles : List NewsArticle) (i : ℤ) : Option NewsArticle :=
  (articles.reverse).find? (fun a => a.id = i)

/-- `RelevanceValidator.deduplicate_articles`: drop all but the most relevant
member of each duplicate group (stable descending sort on the relevance
score, keep the head), preserving the input order of survivors. -/
def deduplicate_articles (simFn : String → String → ℚ) (articles : List NewsArticle) :
    List NewsArticle :=
  if articles.length ≤ 1 then articles
  else
    let duplicates := find_duplicates simFn articles
    if duplicates.isEmpty then articles
    else
      let to_remove := duplicates.foldl
        (fun tr group =>
          let group_articles := group.filterMap (article_map articles)
          let sorted := sort_desc calculate_relevance_score group_articles
          match sorted with
          | [] => tr
          | _ :: others => tr ++ others.map (fun a => a.id))
        []
      articles.filter (fun article => article.id ∉ to_remove)

/-- `RelevanceValidator.filter_by_relevance`. -/
def filter_by_relevance (articles : List NewsArticle) (min_score : ℚ) : List NewsArticle :=
  articles.filter (fun article => is_relevant article min_score)

/-- Similarity stub used for concrete inputs whose comparisons all resolve in
the early branches of `calculate_similarity`, so the stub is never consulted. -/
def simZero : String → String → ℚ := fun _ _ => 0

/-- `FreshnessScorer.freshness_windows`: category-specific decay windows in
hours. -/
def freshness_windows : List (String × ℕ) :=
  [("technology", 6), ("politics", 6), ("business", 6),
   ("sports", 12), ("entertainment", 12), ("health", 12), ("world", 12),
   ("science", 24), ("environment", 24), ("finance", 12)]

/-- `FreshnessScorer.default_freshness_window`. -/
def default_freshness_window : ℕ := 24

/-- `FreshnessScorer.min_freshness_score`. -/
def min_freshness_score : ℚ := 0.3

/-- `FreshnessScorer.get_freshness_window`: dictionary lookup on the
lower-cased category with the default as fallback. -/
def get_freshness_window (category : String) : ℕ :=
  (freshness_windows.lookup (pyLower category)).getD default_freshness_window

/-- Python `round(x, 4)` on the real-valued freshness/composite scores. -/
noncomputable def round4r (x : ℝ) : ℝ := ((round (x * 10000) : ℤ) : ℝ) / 10000

/-- The un-rounded score of `FreshnessScorer.calculate_freshness_score` for
an age below the window: the linear decay `max(0, 1 - age/window)`, damped
beyond the half window by the factor `1 - excess_part ** 1.5` (the source
calls the local variable `excess_ra` + `tio`; it is renamed here). -/
noncomputable def shaped_score (age_hours : ℚ) (freshness_window : ℕ) : ℝ :=
  let freshness_score : ℝ := max 0 (1 - (age_hours : ℝ) / (freshness_window : ℝ))
  if age_hours > (freshness_window : ℚ) * 0.5 then
    let excess_age : ℚ := age_hours - (freshness_window : ℚ) * 0.5
    let excess_part : ℝ := (excess_age : ℝ) / ((freshness_window : ℝ) * 0.5)
    let decay_factor : ℝ := 1 - excess_part ^ (1.5 : ℝ)
    max 0 (freshness_score * decay_factor)
  else freshness_score

/-- `FreshnessScorer.calculate_freshness_score`.  `now` is the source's
`datetime.utcnow()`; `age_hours` is `now - article_created_at` in hours.
At or past the window the early return yields 0; below it the shaped decay
is rounded to four decimals. -/
noncomputable def calculate_freshness_score (now article_created_at : ℚ)
    (category : String) : ℝ :=
  let age_hours : ℚ := now - article_created_at
  let freshness_window := get_freshness_window category
  if age_hours ≥ (freshness_window : ℚ) then 0
  else round4r (shaped_score age_hours freshness_window)

/-- `ArticleRanker` configuration: the three composite-score weights. -/
structure ArticleRanker where
  freshness_weight : ℚ
  relevance_weight : ℚ
  selection_weight : ℚ
deriving DecidableEq

/-- `ArticleRanker.__init__`: weights not summing to 1 are divided by their
total.  In the source a zero total raises `ZeroDivisionError` at the float
divisions; that outcome is modelled as `none`. -/
def ArticleRanker.init (freshness_weight relevance_weight selection_weight : ℚ) :
    Option ArticleRanker :=
  let total_weight := freshness_weight + relevance_weight + selection_weight
  if total_weight ≠ 1 then
    if total_weight = 0 then none
    else some
      { freshness_weight := freshness_weight / total_weight
        relevance_weight := relevance_weight / total_weight
        selection_weight := selection_weight / total_weight }
  else some
    { freshness_weight := freshness_weight
      relevance_weight := relevance_weight
      selection_weight := selection_weight }

/-- The module-level `article_ranker = ArticleRanker()`: the default weights
0.4/0.4/0.2 sum to 1 and are stored unchanged. -/
def article_ranker : ArticleRanker :=
  { freshness_weight := 0.4, relevance_weight := 0.4, selection_weight := 0.2 }

/-- `ArticleRanker.calculate_composite_score`: weighted blend of freshness,
relevance and the constant 0.5 selection placeholder, computed from the
article when the caller does not supply the scores. -/
noncomputable def calculate_composite_score (now : ℚ) (ranker : ArticleRanker)
    (article : NewsArticle) (freshness_score : Option ℝ) (relevance_score : Option ℚ) : ℝ :=
  let freshness : ℝ :=
    freshness_score.getD (calculate_freshness_score now article.created_at article.category)
  let relevance : ℚ := relevance_score.getD (calculate_relevance_score article)
  let selection_score : ℚ := 0.5
  round4r (freshness * (ranker.freshness_weight : ℝ) +
    (relevance : ℝ) * (ranker.relevance_weight : ℝ) +
    (selection_score : ℝ) * (ranker.selection_weight : ℝ))

/-- `ArticleRanker.rank_articles`: score every article, sort the pairs by
score (stable, descending), project the articles back out, and truncate only
when a positive limit was supplied. -/
noncomputable def rank_articles (now : ℚ) (ranker : ArticleRanker)
    (articles : List NewsArticle) (limit : Option ℤ) : List NewsArticle :=
  let scored_articles :=
    articles.map (fun article => (article, calculate_composite_score now ranker article none none))
  let sorted := sort_desc (fun p => p.2) scored_articles
  let ranked_articles := sorted.map (fun p => p.1)
  match limit with
  | some l => if l > 0 then ranked_articles.take l.toNat else ranked_articles
  | none => ranked_articles

/-- `app.schemas.RawArticle`: transient pre-selection article. -/
structure RawArticle where
  title : String
  description : Option String
  url : String
  publishedAt : Option String
  source : String
  category : String
deriving DecidableEq

/-- `app.schemas.SelectedArticle`: RawArticle plus an optional selection
score. -/
structure SelectedArticle where
  title : String
  description : Option String
  url : String
  publishedAt : Option String
  source : String
  category : String
  selection_score : Option ℚ
deriving DecidableEq

/-- `app.schemas.ProcessedArticle`: SelectedArticle plus an optional AI
summary.  The source also stamps a `processed_at := datetime.utcnow()`
wall-clock default, which carries no information for any claim and is not
modelled. -/
structure ProcessedArticle where
  title : String
  description : Option String
  url : String
  publishedAt : Option String
  source : String
  category : String
  ai_summary : Option String
  selection_score : Option ℚ
deriving DecidableEq

/-- `SelectedArticle.from_raw_article`. -/
def SelectedArticle.from_raw_article (raw_article : RawArticle)
    (selection_score : Option ℚ) : SelectedArticle :=
  { title := raw_article.title
    description := raw_article.description
    url := raw_article.url
    publishedAt := raw_article.publishedAt
    source := raw_article.source
    category := raw_article.category
    selection_score := selection_score }

/-- `ProcessedArticle.from_selected_article`. -/
def ProcessedArticle.from_selected_article (selected_article : SelectedArticle)
    (ai_summary : Option String) : ProcessedArticle :=
  { title := selected_article.title
    description := selected_article.description
    url := selected_article.url
    publishedAt := selected_article.publishedAt
    source := selected_article.source
    category := selected_article.category
    selection_score := selected_article.selection_score
    ai_summary := ai_summary }

/-- `app.services.processors.base.ProcessingError`: the processor that
raised.  The human-readable message adds nothing for the claims and is not
modelled. -/
structure ProcessingError where
  processor_name : String
deriving DecidableEq

/-- `app.schemas.ProcessingResult` without `processing_time` (wall-clock
elapsed seconds, an environmental value outside the model). -/
structure ProcessingResult where
  articles : List ProcessedArticle
  total_count : ℕ
  success_count : ℕ
  error_count : ℕ
deriving DecidableEq

/-- The per-article tasks of `SummarizationProcessor.process`, in input
order, with running task index.  `summarizeFn i a` is the outcome of the LLM
call for the `i`-th article: `some s` on success, `none` when the call (or
the surrounding task, surfaced through `asyncio.gather`) raised — both
failure paths of the source produce `from_selected_article(article, None)`.
The concurrency gate (semaphore of width `max_concurrent`) bounds in-flight
requests but leaves the gathered result order untouched. -/
def summarize_each (summarizeFn : ℕ → SelectedArticle → Option String) :
    ℕ → List SelectedArticle → List ProcessedArticle
  | _, [] => []
  | i, article :: rest =>
    ProcessedArticle.from_selected_article article (summarizeFn i article) ::
      summarize_each summarizeFn (i + 1) rest

/-- `SummarizationProcessor.process`: disabled ⇒ pass-through with no
summaries; otherwise one output per input with the per-article LLM outcome. -/
def summarization_process (enabled : Bool)
    (summarizeFn : ℕ → SelectedArticle → Option String)
    (input_data : List SelectedArticle) : List ProcessedArticle :=
  if ¬ enabled then
    input_data.map (fun article => ProcessedArticle.from_selected_article article none)
  else if input_data.isEmpty then []
  else summarize_each summarizeFn 0 input_data

/-- `app.config.Settings.AVAILABLE_CATEGORIES`. -/
def AVAILABLE_CATEGORIES : List String :=
  ["technology", "business", "sports", "entertainment", "health",
   "science", "politics", "world", "finance", "environment"]

/-- `SelectionProcessor.process`.  `llmSelect candidates category top_count`
is the LLM call `select_top_articles`, returning the URLs of its chosen
articles (`selected_dict.get('url', '')`) or failing; a failure raises
`ProcessingError` exactly as the source's `except` clause does.  Chosen URLs
are matched back to the first raw article with that URL; unmatched
selections are dropped. -/
def selection_process (enabled : Bool) (top_count : ℕ)
    (llmSelect : List RawArticle → String → ℕ → Except Unit (List String))
    (input_data : List RawArticle) : Except ProcessingError (List SelectedArticle) :=
  if ¬ enabled then
    .ok ((input_data.take top_count).map (fun a => SelectedArticle.from_raw_article a none))
  else if input_data.isEmpty then .ok []
  else if input_data.length ≤ top_count then
    .ok (input_data.map (fun a => SelectedArticle.from_raw_article a none))
  else
    let category := match input_data with
      | [] => "general"
      | article :: _ => article.category
    match llmSelect input_data category top_count with
    | .error _ => .error { processor_name := "SelectionProcessor" }
    | .ok urls =>
      let selected_articles :=
        (urls.filterMap (fun u => input_data.find? (fun raw => raw.url = u))).map
          (fun raw => SelectedArticle.from_raw_article raw none)
      .ok (selected_articles.take top_count)

/-- `SelectionProcessor.select_articles_for_categories`: validate the
categories, then fetch-and-select per category.  `fetch` is the external
news-API call (`fetch_news_for_category`, which already converts its own
errors into an empty list); a `ProcessingError` escaping `process` for one
category is captured by `asyncio.gather(..., return_exceptions=True)` and
recorded as an empty result for that category. -/
def select_articles_for_categories (enabled : Bool) (top_count : ℕ)
    (llmSelect : List RawArticle → String → ℕ → Except Unit (List String))
    (fetch : String → List RawArticle) (categories : List String) :
    List (String × List SelectedArticle) :=
  let valid_categories := categories.filter (fun cat => cat ∈ AVAILABLE_CATEGORIES)
  if valid_categories.isEmpty then []
  else
    valid_categories.map (fun category =>
      let raw_articles := fetch category
      if raw_articles.isEmpty then (category, [])
      else
        match selection_process enabled top_count llmSelect raw_articles with
        | .ok selected_articles => (category, selected_articles)
        | .error _ => (category, []))

/-- Database session state: the durably committed rows and the session's
current view (committed rows plus staged, not-yet-committed changes;
SQLAlchemy's autoflush makes staged rows visible to queries on the same
session). -/
structure DbSession where
  committed : List NewsArticle
  current : List NewsArticle
deriving DecidableEq

/-- The body of the per-article loop of `StorageProcessor.process` for one
`ProcessedArticle`: look the URL up in the session view and either update
the matched row in place or skip the article.  The source's create branch
calls `NewsArticle(..., ai_summary=...)`, but the mapped class in
`app/models.py` has no `ai_summary` column, so SQLAlchemy's declarative
constructor raises `TypeError`; the per-article `except` catches it and
`continue`s — the source never stages a new row, which the model renders as
`none`.  The update branch succeeds: its assignments are plain `setattr`s,
the mapped columns (`summary`, `description`, `updated_at`, `is_active`)
become durable on commit, and `ai_summary` lands as an ordinary instance
attribute on the session object (held by the model's `ai_summary` field; no
theorem below depends on the `ai_summary` of a committed row). -/
def upsert_article (now : ℚ) (current : List NewsArticle)
    (article_data : ProcessedArticle) : Option (List NewsArticle × NewsArticle) :=
  match current.find? (fun a => a.url = article_data.url) with
  | some existing_article =>
    let updated := { existing_article with
      summary := pyOrOpt article_data.ai_summary article_data.description
      ai_summary := article_data.ai_summary
      description := article_data.description
      updated_at := now
      is_active := true }
    some (current.map (fun a => if a.id = existing_article.id then updated else a),
      updated)
  | none => none

/-- The staging loop of `StorageProcessor.process` over the input batch with
running index `i`.  `failsAt i = true` means the database raised while
handling the `i`-th article (e.g. on `session.execute`); like the create
branch's `TypeError`, that per-article exception is caught by the source,
logged and `continue`d past, so the article is skipped and the loop moves
on. -/
def stage_articles (now : ℚ) (failsAt : ℕ → Bool) :
    ℕ → List NewsArticle → List ProcessedArticle →
    List NewsArticle × List NewsArticle
  | _, current, [] => ([], current)
  | i, current, article_data :: rest =>
    if failsAt i then stage_articles now failsAt (i + 1) current rest
    else
      match upsert_article now current article_data with
      | some (current2, saved) =>
        let (saved_rest, current3) := stage_articles now failsAt (i + 1) current2 rest
        (saved :: saved_rest, current3)
      | none => stage_articles now failsAt (i + 1) current rest

/-- `StorageProcessor.process`: stage an upsert per input article (skipping
articles whose handling raises), then commit everything at once.
`commitFails = true` means `session.commit()` raised: the source rolls the
session back (the current view reverts to the committed rows) and re-raises
as a `ProcessingError`.  Returns the result together with the session after
the call. -/
def storage_process (enabled : Bool) (now : ℚ) (failsAt : ℕ → Bool)
    (commitFails : Bool) (session : DbSession)
    (input_data : List ProcessedArticle) :
    Except ProcessingError (List NewsArticle) × DbSession :=
  if ¬ enabled then (.ok [], session)
  else if input_data.isEmpty then (.ok [], session)
  else
    let (saved_articles, current2) :=
      stage_articles now failsAt 0 session.current input_data
    if commitFails then
      (.error { processor_name := "StorageProcessor" },
        { session with current := session.committed })
    else
      (.ok saved_articles, { committed := current2, current := current2 })

/-- `PipelineService.process_categories`: fetch-and-select per category,
flatten, return the all-zero result when nothing was selected, otherwise
summarize, optionally store (a storage `ProcessingError` propagates — the
pipeline's `except ProcessingError: raise` — with the session already rolled
back), and count successes as articles whose `ai_summary` is truthy.
`storage_present` is `self.storage_processor is not None`; the storage
processor is called exactly when storage is enabled and present, and is
enabled at that call site. -/
def process_categories (enable_selection enable_summarization enable_storage : Bool)
    (storage_present : Bool) (top_count : ℕ)
    (llmSelect : List RawArticle → String → ℕ → Except Unit (List String))
    (fetch : String → List RawArticle)
    (summarizeFn : ℕ → SelectedArticle → Option String)
    (failsAt : ℕ → Bool) (commitFails : Bool) (now : ℚ)
    (session : DbSession) (categories : List String) :
    Except ProcessingError ProcessingResult × DbSession :=
  let category_articles :=
    select_articles_for_categories enable_selection top_count llmSelect fetch categories
  let all_selected_articles :=
    category_articles.foldl (fun acc p => acc ++ p.2) []
  if all_selected_articles.isEmpty then
    (.ok { articles := [], total_count := 0, success_count := 0, error_count := 0 },
      session)
  else
    let processed_articles :=
      summarization_process enable_summarization summarizeFn all_selected_articles
    let stored :=
      if enable_storage ∧ storage_present then
        storage_process true now failsAt commitFails session processed_articles
      else (.ok [], session)
    match stored with
    | (.error e, session2) => (.error e, session2)
    | (.ok _, session2) =>
      let success_count :=
        (processed_articles.filter (fun a => pyTruthy a.ai_summary)).length
      (.ok { articles := processed_articles
             total_count := processed_articles.length
             success_count := success_count
             error_count := processed_articles.length - success_count },
        session2)

/-- `app.config.Settings.MIN_RELEVANCE_SCORE` (default). -/
def MIN_RELEVANCE_SCORE : ℚ := 0.5

/-- `app.config.Settings.AUTO_REFRESH_FRESHNESS_THRESHOLD` (default). -/
noncomputable def AUTO_REFRESH_FRESHNESS_THRESHOLD : ℝ := 0.4

/-- Python `min(l)` for a nonempty list (0 fallback never reached by the
callers below, which guard on emptiness as the source does). -/
noncomputable def list_min : List ℝ → ℝ
  | [] => 0
  | x :: xs => xs.foldl min x

/-- Python `max(l)` for a nonempty list. -/
noncomputable def list_max : List ℝ → ℝ
  | [] => 0
  | x :: xs => xs.foldl max x

/-- The freshness scores of one category's articles, as computed in the
serving loop of `SmartServingService.get_fresh_articles`. -/
noncomputable def category_scores (now : ℚ) (category : String)
    (articles : List NewsArticle) : List ℝ :=
  articles.map (fun article => calculate_freshness_score now article.created_at category)

/-- `avg_freshness` of the serving loop:
`sum(scores) / len(scores) if scores else 0.0`. -/
noncomputable def category_avg_freshness (now : ℚ) (category : String)
    (articles : List NewsArticle) : ℝ :=
  let freshness_scores := category_scores now category articles
  if freshness_scores.isEmpty then 0
  else freshness_scores.sum / (freshness_scores.length : ℝ)

/-- Accumulated state of the per-category loop of `get_fresh_articles`:
the pooled articles, the categories marked for refresh, and the
`articles_found` / `freshness_scores` metadata entries, each in loop order. -/
structure ScanState where
  all_articles : List NewsArticle
  needs_refresh : List String
  articles_found : List (String × ℕ)
  freshness_stats : List (String × ℝ × ℝ × ℝ)

/-- The per-category loop of `SmartServingService.get_fresh_articles`: an
empty category is marked for refresh and contributes no freshness entry;
otherwise the category's average freshness below the auto-refresh threshold
marks it, and independently a count below `min_articles_per_category` marks
it again. -/
noncomputable def serving_scan (now : ℚ) (category_articles : String → List NewsArticle)
    (min_articles_per_category : ℕ) : List String → ScanState
  | [] => { all_articles := [], needs_refresh := [], articles_found := [],
            freshness_stats := [] }
  | category :: rest =>
    let s := serving_scan now category_articles min_articles_per_category rest
    let articles := category_articles category
    if articles.isEmpty then
      { all_articles := s.all_articles
        needs_refresh := category :: s.needs_refresh
        articles_found := (category, 0) :: s.articles_found
        freshness_stats := s.freshness_stats }
    else
      let freshness_scores := category_scores now category articles
      let avg_freshness := category_avg_freshness now category articles
      let marks :=
        (if avg_freshness < AUTO_REFRESH_FRESHNESS_THRESHOLD then [category] else []) ++
        (if articles.length < min_articles_per_category then [category] else [])
      { all_articles := articles ++ s.all_articles
        needs_refresh := marks ++ s.needs_refresh
        articles_found := (category, articles.length) :: s.articles_found
        freshness_stats :=
          (category, round4r avg_freshness, round4r (list_min freshness_scores),
            round4r (list_max freshness_scores)) :: s.freshness_stats }

/-- `SmartServingService._ensure_minimum_per_category`: regroup the ranked
list by category (grouping preserves rank order, so the group of a category
is the ranked list filtered to it) and take at most `min_articles` per
requested category; a shorter category keeps what it has. -/
def ensure_minimum_per_category (articles : List NewsArticle)
    (categories : List String) (min_articles : ℕ) : List NewsArticle :=
  categories.foldr
    (fun category acc =>
      let category_articles := articles.filter (fun a => a.category = category)
      let selected :=
        if category_articles.length ≥ min_articles then
          category_articles.take min_articles
        else category_articles
      selected ++ acc)
    []

/-- The metadata dictionary returned by `get_fresh_articles`.
`refresh_categories` is `none` when the source never sets that key; the
`articles_after_filtering` sub-dictionary is flattened into the
`before_dedup` / `after_dedup` / `final_count` fields ("final" in the
source).  The `timestamp` entry (wall clock) is not modelled. -/
structure ServingMetadata where
  categories : List String
  articles_found : List (String × ℕ)
  freshness_scores : List (String × ℝ × ℝ × ℝ)
  refresh_triggered : Bool
  refresh_categories : Option (List String)
  total_articles : ℕ
  before_dedup : ℕ
  after_dedup : ℕ
  final_count : ℕ

/-- `SmartServingService.get_fresh_articles`.  `category_articles` is the
database read `storage_processor.get_fresh_articles_by_category` (rows within
each category's freshness window, external state passed in explicitly);
`pipeline_present` is `self.pipeline_service is not None`.  The source
rebinds `all_articles` through dedup and relevance filtering before building
the `articles_after_filtering` entry, so the model keeps the same let
shadowing. -/
noncomputable def get_fresh_articles (now : ℚ) (simFn : String → String → ℚ)
    (category_articles : String → List NewsArticle) (pipeline_present : Bool)
    (categories : List String) (min_articles_per_category : ℕ)
    (auto_refresh : Bool) : List NewsArticle × ServingMetadata :=
  let scan := serving_scan now category_articles min_articles_per_category categories
  let needs_refresh := scan.needs_refresh
  let refresh_triggered := auto_refresh && !needs_refresh.isEmpty && pipeline_present
  let all_articles := scan.all_articles
  let all_articles := deduplicate_articles simFn all_articles
  let all_articles := filter_by_relevance all_articles MIN_RELEVANCE_SCORE
  let ranked_articles := rank_articles now article_ranker all_articles none
  let final_articles :=
    ensure_minimum_per_category ranked_articles categories min_articles_per_category
  (final_articles,
    { categories := categories
      articles_found := scan.articles_found
      freshness_scores := scan.freshness_stats
      refresh_triggered := refresh_triggered
      refresh_categories := if refresh_triggered then some needs_refresh else none
      total_articles := final_articles.length
      before_dedup := all_articles.length
      after_dedup := ranked_articles.length
      final_count := final_articles.length })

/-- The refresh-needed condition of the serving loop for one category:
no stored articles, or average freshness below the auto-refresh threshold,
or fewer articles than `min_articles_per_category`. -/
noncomputable def refresh_needed (now : ℚ) (category_articles : String → List NewsArticle)
    (min_articles_per_category : ℕ) (category : String) : Prop :=
  category_articles category = [] ∨
  category_avg_freshness now category (category_articles category) <
    AUTO_REFRESH_FRESHNESS_THRESHOLD ∨
  (category_articles category).length < min_articles_per_category

/-- Article with falsy title and description: every similarity against it is
0 through the empty-text branch.  Relevance 0.2 (URL + active). -/
def artA : NewsArticle :=
  { id := 1, category := "technology", title := "", url := "https://x.com/a",
    description := none, summary := none, ai_summary := none,
    created_at := 0, updated_at := 0, is_active := true }

/-- Same URL as `artA`, 10-character title.  Relevance 0.23. -/
def artB : NewsArticle :=
  { id := 2, category := "technology", title := "hello news", url := "https://x.com/a",
    description := none, summary := none, ai_summary := none,
    created_at := 0, updated_at := 0, is_active := true }

/-- Same title as `artB` (similarity 1.0 through the equal-text branch), a
different URL, and a 20-character description.  Relevance 0.25. -/
def artC : NewsArticle :=
  { id := 3, category := "technology", title := "hello news", url := "https://y.com/c",
    description := some "a twenty char descr.", summary := none, ai_summary := none,
    created_at := 0, updated_at := 0, is_active := true }

/-- Low-relevance article (short title, score 0.2). -/
def artD : NewsArticle :=
  { id := 10, category := "technology", title := "tiny", url := "https://t.com/1",
    description := none, summary := none, ai_summary := none,
    created_at := 0, updated_at := 0, is_active := true }

/-- Processed article whose staging will be made to fail. -/
def procX : ProcessedArticle :=
  { title := "x article title", description := some "description text for x",
    url := "https://x.com/x", publishedAt := none, source := "Feed",
    category := "technology", ai_summary := some "summary for x",
    selection_score := none }

/-- Processed article staged and committed normally. -/
def procY : ProcessedArticle :=
  { title := "y article title", description := some "description text for y",
    url := "https://x.com/y", publishedAt := none, source := "Feed",
    category := "technology", ai_summary := some "summary for y",
    selection_score := none }

/-- Pre-existing database row sharing `procX`'s URL, never touched in the
partial-commit scenario because `procX`'s handling raises. -/
def rowX0 : NewsArticle :=
  { id := 20, category := "technology", title := "stored x",
    url := "https://x.com/x", description := some "old x",
    summary := some "old x summary", ai_summary := none,
    created_at := 0, updated_at := 0, is_active := true }

/-- Pre-existing database row sharing `procY`'s URL, updated in place by the
staging loop. -/
def rowY0 : NewsArticle :=
  { id := 21, category := "technology", title := "stored y",
    url := "https://x.com/y", description := some "old y",
    summary := some "old y summary", ai_summary := none,
    created_at := 0, updated_at := 0, is_active := true }

/-- `rowY0` after the update branch applies `procY` at `now = 1`. -/
def rowY1 : NewsArticle :=
  { id := 21, category := "technology", title := "stored y",
    url := "https://x.com/y", description := some "description text for y",
    summary := some "summary for y", ai_summary := some "summary for y",
    created_at := 0, updated_at := 1, is_active := true }

/-- The identity-relevant fields of a processed article (claim C9): title,
URL, description, source, category. -/
def processed_core (p : ProcessedArticle) :
    String × String × Option String × String × String :=
  (p.title, p.url, p.description, p.source, p.category)

/-- The identity-relevant fields of a selected article (claim C9). -/
def selected_core (a : SelectedArticle) :
    String × String × Option String × String × String :=
  (a.title, a.url, a.description, a.source, a.category)

/-! Theorems.  Helper lemmas come first; one theorem per claim, with a
witness where the claim theorem carries hypotheses. -/

theorem insert_desc_length {α β : Type} [LinearOrder β] (key : α → β) (x : α)
    (l : List α) : (insert_desc key x l).length = l.length + 1 := by
  induction l with
  | nil => simp [insert_desc]
  | cons y ys ih =>
    simp only [insert_desc]
    split
    · simp [ih]
    · simp

theorem sort_desc_length {α β : Type} [LinearOrder β] (key : α → β)
    (l : List α) : (sort_desc key l).length = l.length := by
  induction l with
  | nil => rfl
  | cons x xs ih => simp [sort_desc, insert_desc_length, ih]

/-- Claim C10: `rank_articles` truncates only for a positive limit — with
`limit = 0` or a negative limit it returns the same full ranked list as
`limit = None`, containing one entry per input article. -/
theorem rank_articles_nonpositive_limit (now : ℚ) (ranker : ArticleRanker)
    (articles : List NewsArticle) (l : ℤ) (h : l ≤ 0) :
    rank_articles now ranker articles (some l) =
      rank_articles now ranker articles none ∧
    (rank_articles now ranker articles (some l)).length = articles.length ∧
    (rank_articles now ranker articles none).length = articles.length := by
  have hlen : (rank_articles now ranker articles none).length = articles.length := by
    simp [rank_articles, sort_desc_length]
  have heq : rank_articles now ranker articles (some l) =
      rank_articles now ranker articles none := by
    simp [rank_articles, not_lt.mpr h]
  exact ⟨heq, heq ▸ hlen, hlen⟩

/-- Witness for claim C10 at `limit = 0` on a one-article list. -/
theorem rank_articles_nonpositive_limit_witness :
    rank_articles 0 article_ranker [artD] (some 0) =
      rank_articles 0 article_ranker [artD] none ∧
    (rank_articles 0 article_ranker [artD] (some 0)).length = [artD].length ∧
    (rank_articles 0 article_ranker [artD] none).length = [artD].length :=
  rank_articles_nonpositive_limit 0 article_ranker [artD] 0 (by norm_num)

/-- Claim C8 counterexample: constructing the ranker with the zero weights
(sum 0, which differs from 1.0) does fail — the normalizing divisions raise
`ZeroDivisionError` in the source, `none` in the model. -/
theorem ranker_init_zero_sum_fails : ArticleRanker.init 0 0 0 = none := by
  simp [ArticleRanker.init]

/-- Claim C8 (amended): for weights with a nonzero sum, construction
succeeds and stores each weight divided by the total (so mutual ratios are
preserved and the stored weights sum to exactly 1); weights already summing
to 1 are unchanged, as division by the total is then the identity. -/
theorem ranker_init_normalizes (wf wr ws : ℚ) (h : wf + wr + ws ≠ 0) :
    ArticleRanker.init wf wr ws =
      some { freshness_weight := wf / (wf + wr + ws)
             relevance_weight := wr / (wf + wr + ws)
             selection_weight := ws / (wf + wr + ws) } ∧
    wf / (wf + wr + ws) + wr / (wf + wr + ws) + ws / (wf + wr + ws) = 1 := by
  constructor
  · unfold ArticleRanker.init
    by_cases h1 : wf + wr + ws = 1
    · simp [h1]
    · simp [h1, h]
  · field_simp

/-- Witness for claim C8 on weights summing to 1.6. -/
theorem ranker_init_normalizes_witness :
    ArticleRanker.init (1/2) (7/10) (2/5) =
      some { freshness_weight := (1/2 : ℚ) / (1/2 + 7/10 + 2/5)
             relevance_weight := (7/10 : ℚ) / (1/2 + 7/10 + 2/5)
             selection_weight := (2/5 : ℚ) / (1/2 + 7/10 + 2/5) } ∧
    (1/2 : ℚ) / (1/2 + 7/10 + 2/5) + (7/10 : ℚ) / (1/2 + 7/10 + 2/5) +
      (2/5 : ℚ) / (1/2 + 7/10 + 2/5) = 1 :=
  ranker_init_normalizes (1/2) (7/10) (2/5) (by norm_num)

theorem summarize_each_core (summarizeFn : ℕ → SelectedArticle → Option String) :
    ∀ (i : ℕ) (l : List SelectedArticle),
      (summarize_each summarizeFn i l).map processed_core = l.map selected_core ∧
      (summarize_each summarizeFn i l).length = l.length := by
  intro i l
  induction l generalizing i with
  | nil => simp [summarize_each]
  | cons a rest ih =>
    have h := ih (i + 1)
    simp [summarize_each, processed_core, selected_core,
      ProcessedArticle.from_selected_article, h.1, h.2]

/-- Claim C9: the summarization processor, enabled or disabled, returns one
processed article per input article in input order, copying title, URL,
description, source and category unchanged; an LLM failure only affects the
`ai_summary` field. -/
theorem summarization_preserves_articles (enabled : Bool)
    (summarizeFn : ℕ → SelectedArticle → Option String)
    (input_data : List SelectedArticle) :
    (summarization_process enabled summarizeFn input_data).map processed_core =
      input_data.map selected_core ∧
    (summarization_process enabled summarizeFn input_data).length =
      input_data.length := by
  unfold summarization_process
  by_cases he : enabled
  · by_cases hempty : input_data.isEmpty
    · rw [List.isEmpty_iff] at hempty
      simp [he, hempty]
    · simp only [he, hempty, if_false, not_true, ite_false, if_true]
      exact summarize_each_core summarizeFn 0 input_data
  · simp [he, processed_core, selected_core, ProcessedArticle.from_selected_article,
      List.map_map, Function.comp]

/-- Claim C6: `process_categories` on an empty category list, or on a list
whose members all fall outside the known category set, returns the all-zero
`ProcessingResult` (and leaves the database untouched) instead of raising. -/
theorem process_categories_no_valid_categories
    (enable_selection enable_summarization enable_storage storage_present : Bool)
    (top_count : ℕ)
    (llmSelect : List RawArticle → String → ℕ → Except Unit (List String))
    (fetch : String → List RawArticle)
    (summarizeFn : ℕ → SelectedArticle → Option String)
    (failsAt : ℕ → Bool) (commitFails : Bool) (now : ℚ)
    (session : DbSession) (categories : List String)
    (h : categories.filter (fun cat => cat ∈ AVAILABLE_CATEGORIES) = []) :
    process_categories enable_selection enable_summarization enable_storage
      storage_present top_count llmSelect fetch summarizeFn failsAt commitFails
      now session categories =
    (.ok { articles := [], total_count := 0, success_count := 0, error_count := 0 },
      session) := by
  simp [process_categories, select_articles_for_categories, h]

/-- Witness for claim C6 on a single invalid category. -/
theorem process_categories_no_valid_categories_witness :
    process_categories true true true true 3 (fun _ _ _ => .error ())
      (fun _ => []) (fun _ _ => none) (fun _ => false) false 0
      { committed := [], current := [] } ["astronomy"] =
    (.ok { articles := [], total_count := 0, success_count := 0, error_count := 0 },
      { committed := [], current := [] }) :=
  process_categories_no_valid_categories true true true true 3 _ _ _ _ false 0 _
    ["astronomy"] (by simp [AVAILABLE_CATEGORIES])

/-- Claim C2 counterexample: on a database already holding rows for both
URLs, a batch of two articles in which the database raises while handling
the first article but the commit succeeds ends with the second article's
update durably committed (new summary, description and update time on its
row), the first article's row untouched, and no error reported — some
articles of the batch are persisted even though another article of the same
batch failed to persist.  The committed rows are stated through their
durable columns only. -/
theorem storage_partial_commit_cex :
    (storage_process true 1 (fun i => i == 0) false
      { committed := [rowX0, rowY0], current := [rowX0, rowY0] }
      [procX, procY]).1 = .ok [rowY1] ∧
    (storage_process true 1 (fun i => i == 0) false
      { committed := [rowX0, rowY0], current := [rowX0, rowY0] }
      [procX, procY]).2.committed.map
        (fun a => (a.id, a.url, a.summary, a.description, a.updated_at, a.is_active)) =
      [(20, "https://x.com/x", some "old x summary", some "old x", 0, true),
       (21, "https://x.com/y", some "summary for y", some "description text for y",
         1, true)] ∧
    rowY1.summary ≠ rowY0.summary ∧ procX.url = rowX0.url := by
  refine ⟨?_, ?_, by simp [rowY0, rowY1], by simp [procX, rowX0]⟩ <;>
    simp [storage_process, stage_articles, upsert_article, procX, procY,
      rowX0, rowY0, rowY1, pyOrOpt, pyOrStr, pyTruthy]

/-- Claim C2 (amended): an exception raised at the batch commit (or anywhere
outside the per-article staging bodies) rolls the whole session back —
committed rows are exactly what they were before the call — and re-raises as
a `ProcessingError`; but an exception raised while staging one article
(a database error, or the create branch's unconditional `TypeError`) is
caught and skipped, so the remaining articles still commit (see the
counterexample): storage is not atomic against per-article failures. -/
theorem storage_commit_exception_rolls_back (now : ℚ) (failsAt : ℕ → Bool)
    (committed current : List NewsArticle)
    (p : ProcessedArticle) (rest : List ProcessedArticle) :
    storage_process true now failsAt true
      { committed := committed, current := current } (p :: rest) =
    (.error { processor_name := "StorageProcessor" },
      { committed := committed, current := committed }) := by
  simp [storage_process]

theorem round4r_mono {x y : ℝ} (h : x ≤ y) : round4r x ≤ round4r y := by
  unfold round4r
  have h2 : round (x * 10000) ≤ round (y * 10000) := by
    rw [round_eq, round_eq]
    exact Int.floor_le_floor (by linarith)
  have h3 : ((round (x * 10000) : ℤ) : ℝ) ≤ ((round (y * 10000) : ℤ) : ℝ) := by
    exact_mod_cast h2
  linarith

theorem round4r_nonneg {x : ℝ} (h : 0 ≤ x) : 0 ≤ round4r x := by
  have h0 : round4r (0 : ℝ) = 0 := by unfold round4r; norm_num
  have := round4r_mono h
  linarith

theorem get_freshness_window_pos (category : String) :
    0 < get_freshness_window category := by
  unfold get_freshness_window freshness_windows
  simp only [List.lookup]
  repeat' split
  all_goals simp [default_freshness_window]

theorem shaped_score_nonneg (age_hours : ℚ) (w : ℕ) : 0 ≤ shaped_score age_hours w := by
  unfold shaped_score
  split
  · exact le_max_left 0 _
  · exact le_max_left 0 _

theorem shaped_score_antitone {w : ℕ} (hw : 0 < w) {a1 a2 : ℚ}
    (h12 : a1 ≤ a2) (h2 : a2 < (w : ℚ)) : shaped_score a2 w ≤ shaped_score a1 w := by
  have hwR : (0 : ℝ) < (w : ℝ) := by exact_mod_cast hw
  have h12R : (a1 : ℝ) ≤ (a2 : ℝ) := by exact_mod_cast h12
  have h2R : (a2 : ℝ) < (w : ℝ) := by exact_mod_cast h2
  have hl : 1 - (a2 : ℝ) / w ≤ 1 - (a1 : ℝ) / w := by
    have : (a1 : ℝ) / w ≤ (a2 : ℝ) / w := by gcongr
    linarith
  unfold shaped_score
  by_cases hc2 : a2 > (w : ℚ) * 0.5
  · have hc2R : (w : ℝ) * 0.5 < (a2 : ℝ) := by
      have h' : (((w : ℚ) * 0.5 : ℚ) : ℝ) < ((a2 : ℚ) : ℝ) := Rat.cast_lt.mpr hc2
      push_cast at h'
      linarith
    have hnum2 : (0 : ℝ) ≤ ((a2 - (w : ℚ) * 0.5 : ℚ) : ℝ) := by
      push_cast
      linarith
    have hp2R : (0 : ℝ) ≤ ((a2 - (w : ℚ) * 0.5 : ℚ) : ℝ) / ((w : ℝ) * 0.5) :=
      div_nonneg hnum2 (by positivity)
    have hp2le1 : ((a2 - (w : ℚ) * 0.5 : ℚ) : ℝ) / ((w : ℝ) * 0.5) ≤ 1 := by
      rw [div_le_one (by positivity)]
      push_cast
      linarith
    have hd2nonneg : (0 : ℝ) ≤
        1 - (((a2 - (w : ℚ) * 0.5 : ℚ) : ℝ) / ((w : ℝ) * 0.5)) ^ (1.5 : ℝ) := by
      have := Real.rpow_le_one hp2R hp2le1 (by norm_num : (0:ℝ) ≤ 1.5)
      linarith
    have hd2le1 :
        1 - (((a2 - (w : ℚ) * 0.5 : ℚ) : ℝ) / ((w : ℝ) * 0.5)) ^ (1.5 : ℝ) ≤ 1 := by
      have := Real.rpow_nonneg hp2R (1.5 : ℝ)
      linarith
    by_cases hc1 : a1 > (w : ℚ) * 0.5
    · rw [if_pos hc1, if_pos hc2]
      have hc1R : (w : ℝ) * 0.5 < (a1 : ℝ) := by
        have h' : (((w : ℚ) * 0.5 : ℚ) : ℝ) < ((a1 : ℚ) : ℝ) := Rat.cast_lt.mpr hc1
        push_cast at h'
        linarith
      have hnum1 : (0 : ℝ) ≤ ((a1 - (w : ℚ) * 0.5 : ℚ) : ℝ) := by
        push_cast
        linarith
      have hp1R : (0 : ℝ) ≤ ((a1 - (w : ℚ) * 0.5 : ℚ) : ℝ) / ((w : ℝ) * 0.5) :=
        div_nonneg hnum1 (by positivity)
      have hple : ((a1 - (w : ℚ) * 0.5 : ℚ) : ℝ) / ((w : ℝ) * 0.5) ≤
          ((a2 - (w : ℚ) * 0.5 : ℚ) : ℝ) / ((w : ℝ) * 0.5) := by
        gcongr
      have hd2led1 :
          1 - (((a2 - (w : ℚ) * 0.5 : ℚ) : ℝ) / ((w : ℝ) * 0.5)) ^ (1.5 : ℝ) ≤
          1 - (((a1 - (w : ℚ) * 0.5 : ℚ) : ℝ) / ((w : ℝ) * 0.5)) ^ (1.5 : ℝ) := by
        have := Real.rpow_le_rpow hp1R hple (by norm_num : (0:ℝ) ≤ 1.5)
        linarith
      refine max_le_max (le_refl 0) ?_
      exact mul_le_mul (max_le_max (le_refl 0) hl) hd2led1 hd2nonneg (le_max_left 0 _)
    · rw [if_pos hc2, if_neg hc1]
      calc max 0 (max 0 (1 - (a2 : ℝ) / w) *
              (1 - (((a2 - (w : ℚ) * 0.5 : ℚ) : ℝ) / ((w : ℝ) * 0.5)) ^ (1.5 : ℝ)))
          ≤ max 0 (max 0 (1 - (a2 : ℝ) / w) * 1) :=
            max_le_max (le_refl 0)
              (mul_le_mul_of_nonneg_left hd2le1 (le_max_left 0 _))
        _ = max 0 (max 0 (1 - (a2 : ℝ) / w)) := by rw [mul_one]
        _ = max 0 (1 - (a2 : ℝ) / w) := by rw [← max_assoc, max_self]
        _ ≤ max 0 (1 - (a1 : ℝ) / w) := max_le_max (le_refl 0) hl
  · have hc1 : ¬ a1 > (w : ℚ) * 0.5 := fun hgt => hc2 (lt_of_lt_of_le hgt h12)
    rw [if_neg hc1, if_neg hc2]
    exact max_le_max (le_refl 0) hl

theorem freshness_score_nonneg (now t : ℚ) (category : String) :
    0 ≤ calculate_freshness_score now t category := by
  simp only [calculate_freshness_score]
  split
  · exact le_refl 0
  · exact round4r_nonneg (shaped_score_nonneg _ _)

/-- Claim C7: for a fixed category and evaluation time,
`calculate_freshness_score` is monotonically non-increasing in article age
(a more recent creation time never scores lower), and an article whose age
equals the category's freshness window exactly scores exactly 0. -/
theorem freshness_monotone_and_zero_at_window :
    (∀ (now t1 t2 : ℚ) (category : String), now - t1 < now - t2 →
      calculate_freshness_score now t2 category ≤
        calculate_freshness_score now t1 category) ∧
    (∀ (now t : ℚ) (category : String),
      now - t = (get_freshness_window category : ℚ) →
      calculate_freshness_score now t category = 0) := by
  constructor
  · intro now t1 t2 category h
    have hwpos := get_freshness_window_pos category
    by_cases h2 : now - t2 ≥ (get_freshness_window category : ℚ)
    · have : calculate_freshness_score now t2 category = 0 := by
        unfold calculate_freshness_score
        rw [if_pos h2]
      rw [this]
      exact freshness_score_nonneg now t1 category
    · have h1 : ¬ now - t1 ≥ (get_freshness_window category : ℚ) := by
        push_neg at h2 ⊢
        linarith
      simp only [calculate_freshness_score]
      rw [if_neg h1, if_neg h2]
      exact round4r_mono (shaped_score_antitone hwpos (le_of_lt h) (not_le.mp h2))
  · intro now t category h
    simp only [calculate_freshness_score]
    rw [if_pos (ge_of_eq h)]

/-- Witness for claim C7: ages 1 h and 7 h against the 6-hour technology
window, and age exactly 6 h scoring 0. -/
theorem freshness_monotone_and_zero_at_window_witness :
    calculate_freshness_score 10 3 "technology" ≤
      calculate_freshness_score 10 9 "technology" ∧
    calculate_freshness_score 10 4 "technology" = 0 :=
  ⟨freshness_monotone_and_zero_at_window.1 10 9 3 "technology" (by norm_num),
   freshness_monotone_and_zero_at_window.2 10 4 "technology"
     (by norm_num +decide [get_freshness_window, freshness_windows, pyLower,
        default_freshness_window])⟩

/-- Claim C3 is a code bug: the source never clamps a negative age, so an
article created one hour in the future in category "technology" (window 6 h)
scores `round(1 + 1/6, 4) = 1.1667 > 1`, contradicting both the claim and
the function's own docstring ("score between 0.0 and 1.0"). -/
theorem freshness_future_scores_above_one :
    calculate_freshness_score 0 1 "technology" = 11667 / 10000 ∧
    (1 : ℝ) < calculate_freshness_score 0 1 "technology" := by
  have hw : get_freshness_window "technology" = 6 := by decide
  have h1 : calculate_freshness_score 0 1 "technology" =
      round4r (shaped_score (0 - 1) 6) := by
    simp only [calculate_freshness_score, hw]
    rw [if_neg]
    norm_num
  have h2 : shaped_score (0 - 1) 6 = 7 / 6 := by
    simp only [shaped_score]
    rw [if_neg]
    · rw [max_eq_right]
      · push_cast
        norm_num
      · push_cast
        norm_num
    · norm_num
  have h3 : round4r (7 / 6 : ℝ) = 11667 / 10000 := by
    unfold round4r
    have hr : round ((7 / 6 : ℝ) * 10000) = 11667 := by
      rw [round_eq]
      rw [Int.floor_eq_iff]
      norm_num
    rw [hr]
    norm_num
  rw [h1, h2, h3]
  norm_num

theorem dedup_abc_once :
    deduplicate_articles simZero [artA, artB, artC] = [artB, artC] := by
  norm_num +decide [deduplicate_articles, find_duplicates, find_duplicates_aux,
    scan_partner, calculate_similarity, calculate_relevance_score, similarity_threshold,
    article_map, sort_desc, insert_desc, round4q, pyStrip, pyLower, pyStartsWith, pyTruthy,
    min_title_length, min_description_length, min_summary_length, round_eq,
    artA, artB, artC, simZero]

theorem dedup_abc_twice :
    deduplicate_articles simZero [artB, artC] = [artC] := by
  norm_num +decide [deduplicate_articles, find_duplicates, find_duplicates_aux,
    scan_partner, calculate_similarity, calculate_relevance_score, similarity_threshold,
    article_map, sort_desc, insert_desc, round4q, pyStrip, pyLower, pyStartsWith, pyTruthy,
    min_title_length, min_description_length, min_summary_length, round_eq,
    artB, artC, simZero]

/-- Claim C1 counterexample: on `[artA, artB, artC]` — where `artA` and
`artB` share a URL, `artB` and `artC` share a title, and `artA` and `artC`
are unrelated — the first pass groups only `{artA, artB}` (keeping the more
relevant `artB`) because the greedy grouping never re-compares, so the
survivors `[artB, artC]` still contain a duplicate pair and a second pass
removes `artB`: deduplication is not idempotent. -/
theorem deduplicate_not_idempotent :
    deduplicate_articles simZero (deduplicate_articles simZero [artA, artB, artC]) ≠
      deduplicate_articles simZero [artA, artB, artC] := by
  rw [dedup_abc_once, dedup_abc_twice]
  intro h
  simpa using congrArg List.length h

theorem deduplicate_sublist (simFn : String → String → ℚ)
    (articles : List NewsArticle) :
    (deduplicate_articles simFn articles).Sublist articles := by
  by_cases h1 : articles.length ≤ 1
  · simp [deduplicate_articles, h1]
  · by_cases h2 : (find_duplicates simFn articles).isEmpty
    · simp [deduplicate_articles, h1, h2]
    · simp only [deduplicate_articles, h1, h2, if_false, ite_false]
      exact List.filter_sublist _

/-- Claim C1 (amended): a second deduplication pass never adds, duplicates
or reorders articles — its output is a subsequence of the first pass's
output — but it may remove further articles, because duplicate groups are
built greedily without transitive closure (see the counterexample). -/
theorem deduplicate_twice_sublist (simFn : String → String → ℚ)
    (articles : List NewsArticle) :
    (deduplicate_articles simFn (deduplicate_articles simFn articles)).Sublist
      (deduplicate_articles simFn articles) :=
  deduplicate_sublist simFn (deduplicate_articles simFn articles)

theorem mem_serving_scan_needs_refresh (now : ℚ)
    (catArts : String → List NewsArticle) (m : ℕ) :
    ∀ (cats : List String) (c : String),
      c ∈ (serving_scan now catArts m cats).needs_refresh ↔
        c ∈ cats ∧ refresh_needed now catArts m c := by
  intro cats
  induction cats with
  | nil => intro c; simp [serving_scan]
  | cons category rest ih =>
    intro c
    simp only [serving_scan]
    by_cases hempty : (catArts category).isEmpty
    · rw [if_pos hempty]
      have hnil : catArts category = [] := by simpa [List.isEmpty_iff] using hempty
      by_cases hc : c = category
      · subst hc
        simp [refresh_needed, hnil]
      · simp only [List.mem_cons, hc, false_or, ih c]
    · rw [if_neg hempty]
      have hne : ¬ catArts category = [] := by
        simpa [List.isEmpty_iff] using hempty
      have hmark : ∀ c' : String,
          c' ∈ ((if category_avg_freshness now category (catArts category) <
                  AUTO_REFRESH_FRESHNESS_THRESHOLD then [category] else []) ++
                (if (catArts category).length < m then [category] else [])) ↔
            (c' = category ∧
              (category_avg_freshness now category (catArts category) <
                  AUTO_REFRESH_FRESHNESS_THRESHOLD ∨
                (catArts category).length < m)) := by
        intro c'
        by_cases h1 : category_avg_freshness now category (catArts category) <
            AUTO_REFRESH_FRESHNESS_THRESHOLD <;>
          by_cases h2 : (catArts category).length < m <;>
          simp [h1, h2]
      have hrn : refresh_needed now catArts m category ↔
          (category_avg_freshness now category (catArts category) <
              AUTO_REFRESH_FRESHNESS_THRESHOLD ∨
            (catArts category).length < m) := by
        unfold refresh_needed
        simp [hne]
      simp only [List.mem_append, hmark c, ih c, List.mem_cons]
      by_cases hc : c = category
      · subst hc
        rw [hrn]
        tauto
      · simp only [hc, false_and, false_or, false_iff, or_false]

/-- Claim C4 (amended): when `get_fresh_articles` runs with `auto_refresh`
true, at least one requested category marked refresh-needed, **and a pipeline
service present** (the source additionally requires
`self.pipeline_service` to be non-None before setting the flag), the
returned metadata has `refresh_triggered = true` and `refresh_categories`
is exactly the refresh-needed list: a category appears in it iff it is a
requested category that is refresh-needed (zero stored articles, or average
freshness below the auto-refresh threshold, or fewer than
`min_articles_per_category` articles; a category meeting two conditions is
listed twice). -/
theorem serving_refresh_trigger (now : ℚ) (simFn : String → String → ℚ)
    (catArts : String → List NewsArticle) (cats : List String) (m : ℕ)
    (h : (serving_scan now catArts m cats).needs_refresh ≠ []) :
    (get_fresh_articles now simFn catArts true cats m true).2.refresh_triggered = true ∧
    (get_fresh_articles now simFn catArts true cats m true).2.refresh_categories =
      some (serving_scan now catArts m cats).needs_refresh ∧
    ∀ c, c ∈ (serving_scan now catArts m cats).needs_refresh ↔
      c ∈ cats ∧ refresh_needed now catArts m c := by
  have hb : (serving_scan now catArts m cats).needs_refresh.isEmpty = false := by
    simpa [List.isEmpty_iff] using h
  refine ⟨?_, ?_, fun c => mem_serving_scan_needs_refresh now catArts m cats c⟩
  · simp [get_fresh_articles, hb]
  · simp [get_fresh_articles, hb]

/-- Witness for claim C4: one requested category with zero stored
articles. -/
theorem serving_refresh_trigger_witness :
    (get_fresh_articles 0 simZero (fun _ => []) true ["technology"] 3 true).2.refresh_triggered
        = true ∧
    (get_fresh_articles 0 simZero (fun _ => []) true ["technology"] 3 true).2.refresh_categories
        = some (serving_scan 0 (fun _ => []) 3 ["technology"]).needs_refresh ∧
    ("technology" ∈ (serving_scan 0 (fun _ => []) 3 ["technology"]).needs_refresh ↔
      "technology" ∈ ["technology"] ∧
        refresh_needed 0 (fun _ => []) 3 "technology") := by
  have h := serving_refresh_trigger 0 simZero (fun _ => []) ["technology"] 3
    (by simp [serving_scan])
  exact ⟨h.1, h.2.1, h.2.2 "technology"⟩

/-- Claim C4 counterexample: with a refresh-needed category (zero stored
articles) and `auto_refresh = true` but no pipeline service,
`refresh_triggered` stays false — the claim as stated fails on the code. -/
theorem serving_no_pipeline_not_triggered :
    (serving_scan 0 (fun _ => []) 3 ["technology"]).needs_refresh = ["technology"] ∧
    (get_fresh_articles 0 simZero (fun _ => []) false ["technology"] 3
        true).2.refresh_triggered = false := by
  constructor
  · simp [serving_scan]
  · simp [get_fresh_articles]

/-- Claim C5 is a code bug, stated structurally over every input: the source
rebinds `all_articles` through `deduplicate_articles` and
`filter_by_relevance` before reading `len(all_articles)` into the metadata
key named `before_dedup`, and `after_dedup` is the length of the ranked
(already filtered) list — so both reported counts equal the
post-deduplication post-relevance-filter count, not the pooled count before
deduplication and the count immediately after it that the key names (and the
spec) promise.  The two diverge from the claimed counts whenever
deduplication or the relevance filter drops an article. -/
theorem serving_counts_are_post_filter (now : ℚ) (simFn : String → String → ℚ)
    (catArts : String → List NewsArticle) (pipeline_present : Bool)
    (cats : List String) (m : ℕ) (auto_refresh : Bool) :
    (get_fresh_articles now simFn catArts pipeline_present cats m
        auto_refresh).2.before_dedup =
      (filter_by_relevance (deduplicate_articles simFn
        (serving_scan now catArts m cats).all_articles) MIN_RELEVANCE_SCORE).length ∧
    (get_fresh_articles now simFn catArts pipeline_present cats m
        auto_refresh).2.after_dedup =
      (filter_by_relevance (deduplicate_articles simFn
        (serving_scan now catArts m cats).all_articles) MIN_RELEVANCE_SCORE).length := by
  constructor
  · simp [get_fresh_articles]
  · simp [get_fresh_articles, rank_articles, sort_desc_length]
